import Mathlib

set_option maxRecDepth 4000

/-!
Verification of `generic_gsheet_ingestor.js` (spreadsheet-to-PostgreSQL
ingestion service) against its natural-language specification.

The JavaScript source is shallowly embedded below.  Conventions:

* A JavaScript number that can be `NaN` is modelled as `Option Int`
  (`none` = `NaN`); the comparison operators on such values follow the
  ECMAScript semantics (`NaN` compares false to everything, including
  itself), and `%` is the truncated remainder (`Int.tmod`) with
  `x % 0 = NaN`.
* A JavaScript `Date` is modelled as `JSDate`: its numeric value
  (milliseconds since the epoch) together with the local calendar
  components returned by `getDate` / `getHours` / `getMinutes`,
  plus a validity flag (`valid = false` models an Invalid Date, whose
  value and components are all `NaN`).  `new Date(string)` parsing is an
  external runtime facility and is passed in as an oracle
  `Option String → JSDate`.
* Values read from spreadsheet cells are strings; a cell or field that
  is JavaScript `undefined` is `none : Option String`.
* Database effects are modelled by an explicit transaction interpreter
  `runTx`: statements transform an in-transaction state and may fail
  (via failure oracles standing for the database rejecting a statement);
  the first failure rolls the whole transaction back to the state at
  `BEGIN`, success commits the final state.
-/

/-- A JavaScript `Date`: validity flag, numeric value (ms since epoch) and
the local-time calendar components used by the source
(`getDate`, `getHours`, `getMinutes`).  An Invalid Date has
`valid = false`; its value and components all read as `NaN`. -/
structure JSDate where
  valid : Bool
  epochMs : Int
  day : Nat
  hour : Nat
  minute : Nat
deriving DecidableEq

/-- `Date.prototype.valueOf` — `NaN` (i.e. `none`) for an Invalid Date. -/
def jsDateValue (d : JSDate) : Option Int :=
  if d.valid then some d.epochMs else none

/-- `Date.prototype.getDate` (day of month, local time). -/
def jsGetDate (d : JSDate) : Option Nat :=
  if d.valid then some d.day else none

/-- `Date.prototype.getHours` (local time). -/
def jsGetHours (d : JSDate) : Option Nat :=
  if d.valid then some d.hour else none

/-- `Date.prototype.getMinutes` (local time). -/
def jsGetMinutes (d : JSDate) : Option Nat :=
  if d.valid then some d.minute else none

/-- JavaScript subtraction on possibly-`NaN` integer values. -/
def jsSub (a b : Option Int) : Option Int :=
  match a, b with
  | some x, some y => some (x - y)
  | _, _ => none

/-- JavaScript multiplication on possibly-`NaN` integer values. -/
def jsMul (a b : Option Int) : Option Int :=
  match a, b with
  | some x, some y => some (x * y)
  | _, _ => none

/-- `Math.floor(a / n)` for an integer `a` (possibly `NaN`) and a positive
integer literal `n`: real division followed by floor is floor division. -/
def jsFloorDiv (a : Option Int) (n : Int) : Option Int :=
  match a with
  | some x => some (Int.fdiv x n)
  | none => none

/-- The JavaScript comparison `a >= 0`; false when `a` is `NaN`. -/
def jsGeZero (a : Option Int) : Bool :=
  match a with
  | some x => decide (0 ≤ x)
  | none => false

/-- The JavaScript test `a % b === 0`.  `%` is the truncated remainder;
`x % 0` and any operation on `NaN` yield `NaN`, and `NaN === 0` is false. -/
def jsModIsZero (a b : Option Int) : Bool :=
  match a, b with
  | some x, some y => if y = 0 then false else decide (Int.tmod x y = 0)
  | _, _ => false

/-- The JavaScript strict equality `a === b` on possibly-`NaN` numbers:
false whenever either side is `NaN`. -/
def jsNatEq (a b : Option Nat) : Bool :=
  match a, b with
  | some x, some y => x == y
  | _, _ => false

/-- Decimal digit string to a natural number (most significant first). -/
def digitsToNat (ds : List Char) : Nat :=
  ds.foldl (fun n c => 10 * n + (c.toNat - 48)) 0

/-- Helper for `jsParseInt`: parse a maximal digit prefix; `NaN` if empty. -/
def parseIntCore (sign : Int) (cs : List Char) : Option Int :=
  let ds := cs.takeWhile Char.isDigit
  if ds = [] then none else some (sign * (digitsToNat ds : Int))

/-- `parseInt(value, 10)` of the source: leading whitespace is skipped, an
optional sign is read, then a maximal run of decimal digits; no digits
means `NaN`.  `parseInt(undefined, 10)` coerces `undefined` to the string
"undefined", which has no digit prefix, hence `NaN`. -/
def jsParseInt (v : Option String) : Option Int :=
  match v with
  | none => none
  | some s =>
    match s.data.dropWhile Char.isWhitespace with
    | '-' :: rest => parseIntCore (-1) rest
    | '+' :: rest => parseIntCore 1 rest
    | rest => parseIntCore 1 rest

/-- The validated setup object assembled by `checkSetup` from the eight
required named ranges.  Each field holds the (flattened) cell value of
the corresponding named range; `none` models JavaScript `undefined`. -/
structure Setup where
  metadata_range : Option String
  data_range : Option String
  table_name : Option String
  drop_table : Option String
  first_ingestion : Option String
  ingestion_type : Option String
  frequency_unit : Option String
  frequency_value : Option String
deriving DecidableEq

/-- The `minutesPerUnit` lookup object of `shouldTriggerIngestion`
(source lines 334–340); indexing with a key not present — including
`undefined` — yields `undefined`, i.e. `none`. -/
def minutesPerUnit (unit : Option String) : Option Int :=
  match unit with
  | some "Minute" => some 1
  | some "Hour" => some 60
  | some "Day" => some 1440
  | some "Week" => some 10080
  | _ => none

/-- `shouldTriggerIngestion(setup, processID)` (source lines 325–355).
`parseDate` is the runtime's `new Date(string)` (an oracle), applied to
`setup.first_ingestion`; `processID` is the cycle timestamp.  The
structure mirrors the source: the Manual short-circuit, the Month
special case on calendar components, and otherwise the elapsed-minutes
multiplicity test with JavaScript `NaN` propagation. -/
def shouldTriggerIngestion (setup : Setup) (parseDate : Option String → JSDate)
    (processID : JSDate) : Bool :=
  if setup.ingestion_type = some "Manual" then false
  else
    let firstIngestionDate := parseDate setup.first_ingestion
    let frequencyValue := jsParseInt setup.frequency_value
    if setup.frequency_unit = some "Month" then
      jsNatEq (jsGetDate processID) (jsGetDate firstIngestionDate) &&
      jsNatEq (jsGetHours processID) (jsGetHours firstIngestionDate) &&
      jsNatEq (jsGetMinutes processID) (jsGetMinutes firstIngestionDate)
    else
      let timeDifference :=
        jsFloorDiv (jsSub (jsDateValue processID) (jsDateValue firstIngestionDate)) 60000
      let unitMinutes := jsMul (minutesPerUnit setup.frequency_unit) frequencyValue
      jsGeZero timeDifference && jsModIsZero timeDifference unitMinutes

/-- Reference `unitMinutes` table, following the specification's words for
the four sub-month units (1 / 60 / 1440 / 10080 minutes). -/
def unitMinutesRef (unit : String) : Int :=
  if unit = "Minute" then 1
  else if unit = "Hour" then 60
  else if unit = "Day" then 1440
  else if unit = "Week" then 10080
  else 0

/-- Modelled from the spec (reference definition for claim C1): if
`ingestionType = Manual` return false unconditionally; otherwise
`delta = floor((processId - firstIngestion) / 1 minute)`,
`periodMinutes = frequencyValue * unitMinutes`, and the result is
`delta >= 0 and delta mod periodMinutes == 0`. -/
def isDue_ref (ingestionType frequencyUnit : String) (frequencyValue : Int)
    (firstIngestionMs processIdMs : Int) : Bool :=
  if ingestionType = "Manual" then false
  else
    let delta := Int.fdiv (processIdMs - firstIngestionMs) 60000
    let periodMinutes := frequencyValue * unitMinutesRef frequencyUnit
    decide (0 ≤ delta) && decide (delta % periodMinutes = 0)

/-- State machine for the regular expression of `isNumeric`
(source line 203): an optional minus sign, one or more digits,
zero or more groups of a comma followed by one or more digits, and an
optional dot followed by one or more digits, anchored at both ends. -/
inductive NumState where
  | start
  | intDigits
  | afterComma
  | groupDigits
  | afterDot
  | fracDigits
deriving DecidableEq

/-- One transition of the `isNumeric` automaton; `none` rejects. -/
def numStep (st : NumState) (c : Char) : Option NumState :=
  match st with
  | NumState.start =>
    if c.isDigit then some NumState.intDigits else none
  | NumState.intDigits =>
    if c.isDigit then some NumState.intDigits
    else if c = ',' then some NumState.afterComma
    else if c = '.' then some NumState.afterDot
    else none
  | NumState.afterComma =>
    if c.isDigit then some NumState.groupDigits else none
  | NumState.groupDigits =>
    if c.isDigit then some NumState.groupDigits
    else if c = ',' then some NumState.afterComma
    else if c = '.' then some NumState.afterDot
    else none
  | NumState.afterDot =>
    if c.isDigit then some NumState.fracDigits else none
  | NumState.fracDigits =>
    if c.isDigit then some NumState.fracDigits else none

/-- Run the `isNumeric` automaton; accepting states are those that have
just finished a digit group. -/
def numRun (st : NumState) (cs : List Char) : Bool :=
  match cs with
  | [] => st = NumState.intDigits ∨ st = NumState.groupDigits ∨ st = NumState.fracDigits
  | c :: rest =>
    match numStep st c with
    | some st2 => numRun st2 rest
    | none => false

/-- `isNumeric(value)` (source lines 202–204): the anchored regular
expression test for a decimal number with optional comma
thousands-separators and an optional fractional part. -/
def isNumeric (value : String) : Bool :=
  match value.data with
  | '-' :: rest => numRun NumState.start rest
  | cs => numRun NumState.start cs

/-- `cleanNumericValue(value)` (source lines 207–209): remove every comma. -/
def cleanNumericValue (value : String) : String :=
  String.mk (value.data.filter (fun c => c ≠ ','))

/-- The per-cell normalization inside the batch loop of
`insertDataToPostgres` (source lines 275–280): only the value at column
index 1 is cleaned, and only when `isNumeric` matches. -/
def cleanCell (columnIndex : Nat) (value : String) : String :=
  if columnIndex == 1 && isNumeric value then cleanNumericValue value else value

/-- `row.forEach((value, columnIndex) => ...)` of the value-collection
loop, indexing cells from `start`. -/
def cleanRowAux (start : Nat) (row : List String) : List String :=
  match row with
  | [] => []
  | v :: vs => cleanCell start v :: cleanRowAux (start + 1) vs

/-- The full per-row normalization applied to every inserted row. -/
def cleanRow (row : List String) : List String :=
  cleanRowAux 0 row

/-- `batchSize` (source line 76): rows per insert statement. -/
def batchSize : Nat := 100

/-- The chunking performed by the batch loop of `insertDataToPostgres`
(source line 270–272): `for (let i = 0; i < data.length; i += batchSize)`
with `batch = data.slice(i, i + batchSize)` — chunk `k` is the slice
starting at `k * batchSize`, and the loop runs `ceil(length / batchSize)`
times. -/
def chunksOf (data : List α) : List (List α) :=
  (List.range ((data.length + batchSize - 1) / batchSize)).map
    (fun k => (data.drop (k * batchSize)).take batchSize)

/-- One client session between `BEGIN` and `COMMIT`: `init` is the
committed state at `BEGIN`, the `pending` state is threaded through the
statements, a failing statement (`none`) raises, the `catch` block runs
`ROLLBACK` (restoring `init`) and the error propagates (`false`);
if every statement succeeds the final state is committed (`true`). -/
def runTxAux (init : σ) (pending : σ) (ops : List (σ → Option σ)) : σ × Bool :=
  match ops with
  | [] => (pending, true)
  | op :: rest =>
    match op pending with
    | none => (init, false)
    | some next => runTxAux init next rest

/-- Run a transaction from the committed state `init`. -/
def runTx (init : σ) (ops : List (σ → Option σ)) : σ × Bool :=
  runTxAux init init ops

/-- The insert statements of the batch loop, one per chunk, numbered from
`start`; `failOn` is the failure oracle (the database rejecting the
statement of a given chunk index).  A successful insert appends the
chunk's rows to the in-transaction table contents. -/
def insertOps (failOn : Nat → Bool) (start : Nat) (batches : List (List (List String))) :
    List (List (List String) → Option (List (List String))) :=
  match batches with
  | [] => []
  | b :: bs =>
    (fun s => if failOn start then none else some (s ++ b)) :: insertOps failOn (start + 1) bs

/-- The (normalized) chunks whose multi-row insert statements the batch
loop issues: `data` split into consecutive `batchSize` chunks, each row
normalized by `cleanRow`. -/
def loadBatches (data : List (List String)) : List (List (List String)) :=
  (chunksOf data).map (List.map cleanRow)

/-- `insertDataToPostgres` (source lines 259–297) at the table-contents
level: one transaction that truncates the target table and then executes
one parameterized multi-row insert per chunk; any failure rolls the whole
transaction back to the pre-transaction contents `table0`.  Returns the
committed table contents and the success flag (`false` = the error was
re-thrown after rollback). -/
def insertDataToPostgres (table0 : List (List String)) (data : List (List String))
    (failOn : Nat → Bool) : List (List String) × Bool :=
  runTx table0 ((fun _ => some []) :: insertOps failOn 0 (loadBatches data))

/-- `columnDefinitions` (source line 236): every column name is wrapped in
double quotes and followed by its declared type. -/
def columnDefinitions (metadata : List (String × String)) : String :=
  String.intercalate ", " (metadata.map (fun column => "\"" ++ column.1 ++ "\" " ++ column.2))

/-- `createTableContainer` (source lines 234–256) at the catalog level:
one transaction that drops the target table if it exists (cascading) and
recreates it with one column per metadata entry in declared order
(the `CREATE TABLE` statement uses `columnDefinitions`, so every
identifier is quoted).  The state is the table's column list, `none` when
the table does not exist; `dropFails` / `createFails` are the failure
oracles for the two DDL statements.  Any failure rolls back, leaving the
prior table untouched, and the error is re-thrown (`false`). -/
def createTableContainer (prior : Option (List (String × String)))
    (metadata : List (String × String)) (dropFails createFails : Bool) :
    Option (List (String × String)) × Bool :=
  runTx prior
    [fun _ => if dropFails then none else some none,
     fun _ => if createFails then none else some (some metadata)]

/-- The eight required named-range identifiers (source line 147), in
declaration order. -/
def rangeNames : List String :=
  ["metadata_range", "data_range", "table_name", "drop_table",
   "first_ingestion", "ingestion_type", "frequency_unit", "frequency_value"]

/-- The named-range lookup of `checkSetup` (source line 162): a required
identifier resolves to the first declared named range whose name is the
bare identifier or the identifier scoped to the Setup sheet
(`\x27Setup\x27!` prefix). -/
def resolveName (namedRanges : List String) (rangeName : String) : Option String :=
  namedRanges.find? (fun n => n == rangeName || n == ("\x27Setup\x27!" ++ rangeName))

/-- The required identifiers that did not resolve (source lines 161–169). -/
def missingRanges (namedRanges : List String) : List String :=
  rangeNames.filter (fun rn => (resolveName namedRanges rn).isNone)

/-- The resolved range names, in required-identifier order (the
`foundRanges` array of the source). -/
def foundRanges (namedRanges : List String) : List String :=
  rangeNames.filterMap (resolveName namedRanges)

/-- The single-cell flattening of `checkSetup` (source lines 173–178): a
batch-fetched rectangular value array is replaced by its first row's
first cell.  `none` models a range whose `values` key is absent (the
Sheets API omits it for an empty range rather than returning an empty
array), and a present first row with no cells flattens to `undefined`. -/
def flattenRangeValues (v : Option (List (List String))) : Option String :=
  match v with
  | none => none
  | some [] => none
  | some (row :: _) => row.head?

/-- The flattened values of the resolved ranges, in required-identifier
order (the mutated `namedRangesValues` array). -/
def fetchedValues (namedRanges : List String)
    (fetch : String → Option (List (List String))) : List (Option String) :=
  (foundRanges namedRanges).map (fun fr => flattenRangeValues (fetch fr))

/-- The setup-object assembly of `checkSetup` (source lines 179–182):
field `k` of the setup is entry `k` of the flattened values (JavaScript
`undefined`, i.e. `none`, when absent). -/
def mkSetup (values : List (Option String)) : Setup :=
  { metadata_range := (values.get? 0).join,
    data_range := (values.get? 1).join,
    table_name := (values.get? 2).join,
    drop_table := (values.get? 3).join,
    first_ingestion := (values.get? 4).join,
    ingestion_type := (values.get? 5).join,
    frequency_unit := (values.get? 6).join,
    frequency_value := (values.get? 7).join }

/-- The per-value emptiness test of `checkSetup` (source line 183):
an empty string, `null` or `undefined` counts as empty. -/
def isEmptyVal (v : Option String) : Bool :=
  v == none || v == some ""

/-- The result of `checkSetup`: the `setup` object and the `validSetup`
flag.  `setup = none` models the JavaScript `undefined` produced when the
hoisted `var setup` is never assigned. -/
structure CheckSetupResult where
  setup : Option Setup
  validSetup : Bool
deriving DecidableEq

/-- `checkSetup(sheets, sheetID)` (source lines 145–199), with the
spreadsheet collaborator abstracted: `namedRanges` is the document's
declared named-range name list and `fetch` the batch range read.  If any
required identifier is unresolvable, the function returns with `setup`
never assigned (`none`) and `validSetup = false`; otherwise the setup is
assembled from the flattened values and `validSetup` is true exactly when
no value is empty. -/
def checkSetup (namedRanges : List String)
    (fetch : String → Option (List (List String))) : CheckSetupResult :=
  if missingRanges namedRanges = [] then
    { setup := some (mkSetup (fetchedValues namedRanges fetch)),
      validSetup := !(fetchedValues namedRanges fetch).any isEmptyVal }
  else
    { setup := none, validSetup := false }

/-- The eight fields of a setup object, in required-identifier order. -/
def setupFields (s : Setup) : List (Option String) :=
  [s.metadata_range, s.data_range, s.table_name, s.drop_table,
   s.first_ingestion, s.ingestion_type, s.frequency_unit, s.frequency_value]

/-- The outcome of the per-sheet body of `main`'s cycle loop
(source lines 408–422). -/
inductive SheetOutcome where
  | invalidSetup
  | notDue
  | ingested
  | ingestError
deriving DecidableEq

/-- One candidate sheet as seen by a cycle: its declared named ranges and
range contents, whether its configuration read throws (a spreadsheet
transport failure inside `checkSetup`, which re-throws), and whether its
ingestion step fails internally (a provisioning or loading error inside
`ingestCycle`, which catches and logs it). -/
structure SheetSim where
  namedRanges : List String
  fetch : String → Option (List (List String))
  fetchThrows : Bool
  ingestFails : Bool

/-- The per-sheet body of `main`'s loop (source lines 410–421), given that
the sheet's configuration read did not throw: validate, then schedule,
then ingest (`ingestCycle` catches its own errors, so a provisioning or
loading failure yields an outcome, not an exception). -/
def processSheet (processID : JSDate) (parseDate : Option String → JSDate)
    (s : SheetSim) : SheetOutcome :=
  let r := checkSetup s.namedRanges s.fetch
  if r.validSetup then
    match r.setup with
    | some st =>
      if shouldTriggerIngestion st parseDate processID then
        if s.ingestFails then SheetOutcome.ingestError else SheetOutcome.ingested
      else SheetOutcome.notDue
    | none => SheetOutcome.invalidSetup
  else
    SheetOutcome.invalidSetup

/-- One cycle of `main` (source lines 404–425): the `for` loop over the
candidate sheets runs inside a single `try`; a sheet whose configuration
read throws aborts the loop (its exception is caught by the per-cycle
`catch`, outside the loop), so no further sheet of that cycle is
processed.  Returns the outcomes of the sheets actually processed and
whether the loop ran to completion. -/
def runCycle (processID : JSDate) (parseDate : Option String → JSDate) :
    List SheetSim → List SheetOutcome × Bool
  | [] => ([], true)
  | s :: rest =>
    if s.fetchThrows then ([], false)
    else
      let r := runCycle processID parseDate rest
      (processSheet processID parseDate s :: r.1, r.2)

/-- Claim C1: for every configuration whose `frequency_unit` is one of
Minute/Hour/Day/Week (with all fields present, a parsed positive
`frequency_value`, and a valid `first_ingestion` timestamp),
`shouldTriggerIngestion` agrees with the specification's reference
definition `isDue_ref`: false for Manual ingestion, and otherwise true
iff the elapsed whole minutes `delta` satisfy `delta ≥ 0` and
`delta mod (frequencyValue * unitMinutes) = 0`. -/
theorem C1_isDue_matches_reference (setup : Setup)
    (parseDate : Option String → JSDate) (processID : JSDate)
    (it un : String) (fv : Int)
    (hit : setup.ingestion_type = some it)
    (hun : setup.frequency_unit = some un)
    (hu : un = "Minute" ∨ un = "Hour" ∨ un = "Day" ∨ un = "Week")
    (hfv : jsParseInt setup.frequency_value = some fv)
    (hpos : 1 ≤ fv)
    (hpv : processID.valid = true)
    (hfi : (parseDate setup.first_ingestion).valid = true) :
    shouldTriggerIngestion setup parseDate processID =
      isDue_ref it un fv (parseDate setup.first_ingestion).epochMs processID.epochMs := by
  have hdelta :
      jsFloorDiv (jsSub (jsDateValue processID)
          (jsDateValue (parseDate setup.first_ingestion))) 60000 =
        some (Int.fdiv (processID.epochMs - (parseDate setup.first_ingestion).epochMs) 60000) := by
    simp [jsFloorDiv, jsSub, jsDateValue, hpv, hfi]
  by_cases hM : it = "Manual"
  · subst hM
    simp [shouldTriggerIngestion, isDue_ref, hit]
  · have hMonth : un ≠ "Month" := by
      rcases hu with h | h | h | h <;> subst h <;> decide
    have hunit : minutesPerUnit setup.frequency_unit = some (unitMinutesRef un) := by
      rw [hun]
      rcases hu with h | h | h | h <;> subst h <;> rfl
    have hupos : 1 ≤ unitMinutesRef un := by
      rcases hu with h | h | h | h <;> subst h <;> decide
    set d := Int.fdiv (processID.epochMs - (parseDate setup.first_ingestion).epochMs) 60000 with hd
    have hper : unitMinutesRef un * fv ≠ 0 := by positivity
    have hlhs : shouldTriggerIngestion setup parseDate processID =
        (decide (0 ≤ d) && decide (Int.tmod d (unitMinutesRef un * fv) = 0)) := by
      rw [shouldTriggerIngestion]
      rw [if_neg (by simp [hit, hM])]
      rw [if_neg (by simp [hun, hMonth])]
      rw [hdelta, hunit, hfv]
      simp only [jsMul, jsGeZero, jsModIsZero, hd]
      rw [if_neg hper]
    rw [hlhs, isDue_ref, if_neg hM]
    simp only [← hd]
    by_cases hge : 0 ≤ d
    · have : Int.tmod d (unitMinutesRef un * fv) = d % (fv * unitMinutesRef un) := by
        rw [Int.tmod_eq_emod hge (by positivity), Int.mul_comm]
      rw [this]
    · simp [hge]

/-- Witness for C1 at the specification's end-to-end example: a Day/1
Automatic configuration anchored at epoch-ms 0 is due exactly 1440
minutes later (and, via a second application, not due at 1445 minutes,
i.e. at 00:05 the next day). -/
theorem C1_isDue_matches_reference_witness :
    shouldTriggerIngestion
        { metadata_range := some "m", data_range := some "d",
          table_name := some "t", drop_table := some "TRUE",
          first_ingestion := some "2024-01-01T00:00",
          ingestion_type := some "Automatic",
          frequency_unit := some "Day", frequency_value := some "1" }
        (fun _ => { valid := true, epochMs := 0, day := 1, hour := 0, minute := 0 })
        { valid := true, epochMs := 86400000, day := 2, hour := 0, minute := 0 } = true ∧
    shouldTriggerIngestion
        { metadata_range := some "m", data_range := some "d",
          table_name := some "t", drop_table := some "TRUE",
          first_ingestion := some "2024-01-01T00:00",
          ingestion_type := some "Automatic",
          frequency_unit := some "Day", frequency_value := some "1" }
        (fun _ => { valid := true, epochMs := 0, day := 1, hour := 0, minute := 0 })
        { valid := true, epochMs := 86700000, day := 2, hour := 0, minute := 5 } = false := by
  constructor
  · rw [C1_isDue_matches_reference _ _ _ "Automatic" "Day" 1 rfl rfl (by simp) (by decide)
      (by decide) rfl rfl]
    decide
  · rw [C1_isDue_matches_reference _ _ _ "Automatic" "Day" 1 rfl rfl (by simp) (by decide)
      (by decide) rfl rfl]
    decide

/-- Claim C6: for a configuration with `frequency_unit = Month` and a
non-Manual `ingestion_type` (with both dates valid),
`shouldTriggerIngestion` returns true iff the day-of-month, hour and
minute components of `processID` equal those of the parsed
`first_ingestion` — independent of `frequency_value` and with no
requirement that `processID` be on or after `first_ingestion`. -/
theorem C6_month_components (setup : Setup)
    (parseDate : Option String → JSDate) (processID : JSDate)
    (hm : setup.frequency_unit = some "Month")
    (hnm : setup.ingestion_type ≠ some "Manual")
    (hpv : processID.valid = true)
    (hfi : (parseDate setup.first_ingestion).valid = true) :
    shouldTriggerIngestion setup parseDate processID =
      (processID.day == (parseDate setup.first_ingestion).day &&
       processID.hour == (parseDate setup.first_ingestion).hour &&
       processID.minute == (parseDate setup.first_ingestion).minute) := by
  rw [shouldTriggerIngestion, if_neg hnm, if_pos hm]
  simp [jsNatEq, jsGetDate, jsGetHours, jsGetMinutes, hpv, hfi]

/-- Witness for C6: a Month configuration whose `first_ingestion` parses to
day 15, 10:30 triggers at a `processID` with matching components even
though the `processID` value (epoch-ms 0) lies before the anchor
(epoch-ms 999), and `frequency_value = "7"` plays no role. -/
theorem C6_month_components_witness :
    shouldTriggerIngestion
        { metadata_range := some "m", data_range := some "d",
          table_name := some "t", drop_table := some "FALSE",
          first_ingestion := some "2024-02-15T10:30",
          ingestion_type := some "Automatic",
          frequency_unit := some "Month", frequency_value := some "7" }
        (fun _ => { valid := true, epochMs := 999, day := 15, hour := 10, minute := 30 })
        { valid := true, epochMs := 0, day := 15, hour := 10, minute := 30 } = true := by
  rw [C6_month_components _ _ _ rfl (by decide) rfl rfl]
  decide

/-- Counterexample to claim C9 as stated: the claim asserts that whenever
`ingestion_type` is not Manual and `frequency_value` does not parse as an
integer, `shouldTriggerIngestion` returns false.  But for
`frequency_unit = Month` the function never consults `frequency_value`:
with the unparseable value "oops" and matching calendar components it
returns true. -/
theorem C9_counterexample :
    jsParseInt (some "oops") = none ∧
    shouldTriggerIngestion
        { metadata_range := some "m", data_range := some "d",
          table_name := some "t", drop_table := some "FALSE",
          first_ingestion := some "2024-02-15T10:30",
          ingestion_type := some "Automatic",
          frequency_unit := some "Month", frequency_value := some "oops" }
        (fun _ => { valid := true, epochMs := 0, day := 15, hour := 10, minute := 30 })
        { valid := true, epochMs := 0, day := 15, hour := 10, minute := 30 } = true := by
  constructor
  · decide
  · decide

/-- Claim C9 as amended: for a non-Manual setup whose `frequency_unit` is
not `Month`, if the unit is not one of Minute/Hour/Day/Week (the
`minutesPerUnit` lookup yields `undefined`) or `frequency_value` does not
parse as an integer, the `NaN` arithmetic makes both comparisons false
and `shouldTriggerIngestion` returns false (it is total and never
throws); for `frequency_unit = Month` the function ignores
`frequency_value` entirely. -/
theorem C9_nan_arithmetic_false (setup : Setup)
    (parseDate : Option String → JSDate) (processID : JSDate)
    (hnm : setup.ingestion_type ≠ some "Manual")
    (hmo : setup.frequency_unit ≠ some "Month")
    (hbad : minutesPerUnit setup.frequency_unit = none ∨
      jsParseInt setup.frequency_value = none) :
    shouldTriggerIngestion setup parseDate processID = false := by
  rw [shouldTriggerIngestion, if_neg hnm, if_neg hmo]
  have hnan : jsMul (minutesPerUnit setup.frequency_unit)
      (jsParseInt setup.frequency_value) = none := by
    rcases hbad with h | h <;> rw [h] <;> cases (jsParseInt setup.frequency_value) <;>
      first
        | rfl
        | cases (minutesPerUnit setup.frequency_unit) <;> rfl
  rw [hnan]
  simp [jsModIsZero]

/-- Witness for the amended C9: an Automatic setup with the unknown unit
"Fortnight" (and respectively a good unit "Day" with unparseable value
"oops") yields false. -/
theorem C9_nan_arithmetic_false_witness :
    shouldTriggerIngestion
        { metadata_range := some "m", data_range := some "d",
          table_name := some "t", drop_table := some "FALSE",
          first_ingestion := some "2024-02-15T10:30",
          ingestion_type := some "Automatic",
          frequency_unit := some "Fortnight", frequency_value := some "1" }
        (fun _ => { valid := true, epochMs := 0, day := 15, hour := 10, minute := 30 })
        { valid := true, epochMs := 0, day := 15, hour := 10, minute := 30 } = false ∧
    shouldTriggerIngestion
        { metadata_range := some "m", data_range := some "d",
          table_name := some "t", drop_table := some "FALSE",
          first_ingestion := some "2024-02-15T10:30",
          ingestion_type := some "Automatic",
          frequency_unit := some "Day", frequency_value := some "oops" }
        (fun _ => { valid := true, epochMs := 0, day := 15, hour := 10, minute := 30 })
        { valid := true, epochMs := 0, day := 15, hour := 10, minute := 30 } = false := by
  constructor
  · exact C9_nan_arithmetic_false _ _ _ (by decide) (by decide) (Or.inl (by decide))
  · exact C9_nan_arithmetic_false _ _ _ (by decide) (by decide) (Or.inr (by decide))

/-- If every statement of a run of insert ops succeeds, the transaction
state accumulates exactly the concatenation of the batches. -/
theorem runTxAux_insertOps_ok (failOn : Nat → Bool) (batches : List (List (List String)))
    (init pending : List (List String)) (start : Nat)
    (h : ∀ i, failOn i = false) :
    runTxAux init pending (insertOps failOn start batches) =
      (pending ++ batches.flatten, true) := by
  induction batches generalizing pending start with
  | nil => simp [insertOps, runTxAux]
  | cons b bs ih =>
    simp only [insertOps, runTxAux, h start, Bool.false_eq_true, if_false,
      List.flatten_cons]
    rw [ih (pending ++ b) (start + 1), List.append_assoc]

/-- If some batch index within range fails, the transaction rolls back to
`init` and reports failure. -/
theorem runTxAux_insertOps_fail (failOn : Nat → Bool) (batches : List (List (List String)))
    (init pending : List (List String)) (start : Nat)
    (h : ∃ j, j < batches.length ∧ failOn (start + j) = true) :
    runTxAux init pending (insertOps failOn start batches) = (init, false) := by
  induction batches generalizing pending start with
  | nil =>
    obtain ⟨j, hj, _⟩ := h
    simp at hj
  | cons b bs ih =>
    obtain ⟨j, hj, hf⟩ := h
    by_cases h0 : failOn start = true
    · simp [insertOps, runTxAux, h0]
    · have hjne : j ≠ 0 := by
        intro hz
        subst hz
        simp at hf
        exact h0 hf
      obtain ⟨j2, rfl⟩ := Nat.exists_eq_succ_of_ne_zero hjne
      simp only [insertOps, runTxAux, eq_false_of_ne_true h0, Bool.false_eq_true, if_false]
      refine ih (pending ++ b) (start + 1) ⟨j2, by simpa using hj, ?_⟩
      have harg : start + 1 + j2 = start + j2.succ := by omega
      rw [harg]
      exact hf

/-- Claim C2: whenever some chunk's insert statement fails, the whole load
transaction — the truncate and every insert — is rolled back: the
committed table contents are exactly the pre-load contents `table0` and
the load reports failure.  The load is all-or-nothing; no partial commit
is possible. -/
theorem C2_load_all_or_nothing (table0 data : List (List String)) (failOn : Nat → Bool)
    (h : ∃ k, k < (loadBatches data).length ∧ failOn k = true) :
    insertDataToPostgres table0 data failOn = (table0, false) := by
  rw [insertDataToPostgres, runTx, runTxAux]
  exact runTxAux_insertOps_fail failOn (loadBatches data) table0 [] 0 (by simpa using h)

/-- Witness for C2 at the specification's scenario: a 201-row load
(3 chunks) into a freshly created empty table whose third chunk
(index 2) fails ends with the table in its pre-load empty state. -/
theorem C2_load_all_or_nothing_witness :
    insertDataToPostgres [] (List.replicate 201 ["r"]) (fun k => k == 2) = ([], false) := by
  exact C2_load_all_or_nothing [] (List.replicate 201 ["r"]) (fun k => k == 2)
    ⟨2, by decide, by decide⟩

/-- A nonempty list's chunking is its first `batchSize` rows followed by
the chunking of the rest (the loop's first iteration plus the others). -/
theorem chunksOf_eq_cons (l : List α) (h : l ≠ []) :
    chunksOf l = l.take batchSize :: chunksOf (l.drop batchSize) := by
  have hlen : 1 ≤ l.length := List.length_pos.mpr h
  have hn : (l.length + batchSize - 1) / batchSize =
      ((l.drop batchSize).length + batchSize - 1) / batchSize + 1 := by
    rw [List.length_drop]
    unfold batchSize
    omega
  rw [chunksOf, chunksOf, hn, List.range_succ_eq_map, List.map_cons, List.map_map]
  congr 1
  apply List.map_congr_left
  intro k _
  simp only [Function.comp_apply, List.drop_drop]
  congr 2
  rw [Nat.succ_mul]
  ring

/-- Chunking an empty row list yields no chunks. -/
theorem chunksOf_nil : chunksOf ([] : List α) = [] := by
  rw [chunksOf]
  norm_num [batchSize]

/-- Bounded-length auxiliary for `chunksOf_flatten`. -/
theorem chunksOf_flatten_aux (n : Nat) :
    ∀ l : List α, l.length ≤ n → (chunksOf l).flatten = l := by
  induction n with
  | zero =>
    intro l hl
    have : l = [] := List.length_eq_zero.mp (Nat.le_zero.mp hl)
    subst this
    rw [chunksOf_nil]
    rfl
  | succ n ih =>
    intro l hl
    by_cases h : l = []
    · subst h
      rw [chunksOf_nil]
      rfl
    · rw [chunksOf_eq_cons l h, List.flatten_cons,
        ih (l.drop batchSize) (by rw [List.length_drop]; unfold batchSize; omega),
        List.take_append_drop]

/-- The chunks are consecutive and complete: concatenating them restores
the original row list. -/
theorem chunksOf_flatten (l : List α) : (chunksOf l).flatten = l :=
  chunksOf_flatten_aux l.length l (Nat.le_refl _)

/-- Normalization preserves row length. -/
theorem cleanRowAux_length (start : Nat) (row : List String) :
    (cleanRowAux start row).length = row.length := by
  induction row generalizing start with
  | nil => rfl
  | cons v vs ih => simp [cleanRowAux, ih]

/-- A successful load commits and the committed table contents are the
concatenation of the normalized chunks. -/
theorem insertDataToPostgres_ok (table0 data : List (List String)) (failOn : Nat → Bool)
    (hok : ∀ i, failOn i = false) :
    insertDataToPostgres table0 data failOn = ((loadBatches data).flatten, true) := by
  rw [insertDataToPostgres, runTx, runTxAux]
  exact runTxAux_insertOps_ok failOn (loadBatches data) table0 [] 0 hok

/-- The rows a successful load inserts are exactly the input rows, each
normalized by `cleanRow`, in order. -/
theorem loadBatches_flatten (data : List (List String)) :
    (loadBatches data).flatten = data.map cleanRow := by
  rw [loadBatches, ← List.map_flatten, chunksOf_flatten]

/-- Claim C5: a successful load splits the rows into consecutive chunks of
`batchSize = 100` (their concatenation restores the input), executes one
insert statement per chunk inside the one transaction, and commits; for
an input of 250 rows this is exactly 3 statements covering 100, 100 and
50 rows, and the committed table holds 250 rows. -/
theorem C5_chunked_load (table0 data : List (List String)) (failOn : Nat → Bool)
    (hok : ∀ i, failOn i = false) :
    (chunksOf data).flatten = data ∧
    insertDataToPostgres table0 data failOn = ((loadBatches data).flatten, true) ∧
    (data.length = 250 →
      (loadBatches data).length = 3 ∧
      (loadBatches data).map List.length = [100, 100, 50] ∧
      (insertDataToPostgres table0 data failOn).1.length = 250) := by
  refine ⟨chunksOf_flatten data, insertDataToPostgres_ok table0 data failOn hok, ?_⟩
  intro h250
  have hmap : (loadBatches data).map List.length = [100, 100, 50] := by
    have h3 : (data.length + batchSize - 1) / batchSize = 3 := by
      rw [h250]
      decide
    rw [loadBatches, chunksOf, h3, List.map_map, List.map_map]
    show List.map _ [0, 1, 2] = _
    simp [Function.comp_def, List.length_take, List.length_drop, h250, batchSize,
      Nat.min_def]
  refine ⟨?_, hmap, ?_⟩
  · have := congrArg List.length hmap
    simpa using this
  · rw [insertDataToPostgres_ok table0 data failOn hok]
    show ((loadBatches data).flatten).length = 250
    rw [List.length_flatten, hmap]
    decide

/-- Witness for C5: loading 250 one-cell rows with no failures commits
250 rows. -/
theorem C5_chunked_load_witness :
    (insertDataToPostgres [] (List.replicate 250 ["x"]) (fun _ => false)).2 = true ∧
    (insertDataToPostgres [] (List.replicate 250 ["x"]) (fun _ => false)).1.length = 250 := by
  have h := C5_chunked_load [] (List.replicate 250 ["x"]) (fun _ => false) (fun _ => rfl)
  refine ⟨by rw [h.2.1], (h.2.2 (by decide)).2.2⟩

/-- The normalized cell at position `i` of `cleanRowAux start row`. -/
theorem cleanRowAux_get (start : Nat) (row : List String) (i : Nat) (v : String)
    (h : row.get? i = some v) :
    (cleanRowAux start row).get? i = some (cleanCell (start + i) v) := by
  induction row generalizing start i with
  | nil => simp at h
  | cons w ws ih =>
    cases i with
    | zero =>
      simp at h
      subst h
      rfl
    | succ i2 =>
      simp only [List.get?_cons_succ] at h
      have := ih (start + 1) i2 h
      simpa [cleanRowAux, Nat.add_assoc, Nat.add_comm 1 i2] using this

/-- Claim C7: a successful load commits exactly the input rows with
`cleanRow` applied to each; and `cleanRow` normalizes exactly the value
at positional index 1 — comma-stripping it when it matches the numeric
pattern — leaving every other position, and non-matching second-column
values, unchanged. -/
theorem C7_second_column_normalization (table0 data : List (List String))
    (failOn : Nat → Bool) (row : List String) (i : Nat) (v : String)
    (hok : ∀ j, failOn j = false) (h : row.get? i = some v) :
    (insertDataToPostgres table0 data failOn).1 = data.map cleanRow ∧
    (cleanRow row).get? i =
      some (if i == 1 && isNumeric v then cleanNumericValue v else v) := by
  constructor
  · rw [insertDataToPostgres_ok table0 data failOn hok, loadBatches_flatten]
  · have := cleanRowAux_get 0 row i v h
    simpa [cleanCell, Nat.zero_add] using this

/-- Witness for C7: in the row `["7", "1,234,567", "8,9"]` the load
normalizes index 1 to `"1234567"` and leaves index 2 (also
comma-separated numeric) unchanged; a 2-row load commits the normalized
rows. -/
theorem C7_second_column_normalization_witness :
    (insertDataToPostgres [] [["7", "1,234,567", "8,9"], ["a", "x", "b"]]
        (fun _ => false)).1 =
      [["7", "1234567", "8,9"], ["a", "x", "b"]] ∧
    (cleanRow ["7", "1,234,567", "8,9"]).get? 1 = some "1234567" ∧
    (cleanRow ["7", "1,234,567", "8,9"]).get? 2 = some "8,9" := by
  have h1 := C7_second_column_normalization [] [["7", "1,234,567", "8,9"], ["a", "x", "b"]]
    (fun _ => false) ["7", "1,234,567", "8,9"] 1 "1,234,567" (fun _ => rfl) (by decide)
  have h2 := C7_second_column_normalization [] [["7", "1,234,567", "8,9"], ["a", "x", "b"]]
    (fun _ => false) ["7", "1,234,567", "8,9"] 2 "8,9" (fun _ => rfl) (by decide)
  refine ⟨?_, ?_, ?_⟩
  · rw [h1.1]
    decide
  · rw [h1.2]
    decide
  · rw [h2.2]
    decide

/-- Claim C8: provisioning with `dropTable = true` runs the conditional
cascading drop and the quoted-identifier `CREATE TABLE` in one
transaction: if either statement fails the transaction rolls back and
the prior table (or its absence) is untouched; if both succeed, the
commit leaves a table whose column list equals the metadata exactly, in
declared order.  The generated column definitions wrap every identifier
in double quotes, tolerating embedded whitespace. -/
theorem C8_provision_transactional (prior : Option (List (String × String)))
    (metadata : List (String × String)) (dropFails createFails : Bool) :
    ((dropFails = true ∨ createFails = true) →
      createTableContainer prior metadata dropFails createFails = (prior, false)) ∧
    (dropFails = false → createFails = false →
      createTableContainer prior metadata dropFails createFails = (some metadata, true)) ∧
    columnDefinitions [("column with space", "text"), ("n", "numeric")] =
      "\"column with space\" text, \"n\" numeric" := by
  refine ⟨?_, ?_, by decide⟩
  · intro h
    cases dropFails <;> cases createFails <;>
      simp_all [createTableContainer, runTx, runTxAux]
  · intro h1 h2
    subst h1
    subst h2
    rfl

/-- Witness for C8: a create failure after a successful drop rolls back to
the prior one-column table; with no failures the new two-column table
(in metadata order) is committed. -/
theorem C8_provision_transactional_witness :
    createTableContainer (some [("old", "int")]) [("a b", "text"), ("n", "numeric")]
        false true = (some [("old", "int")], false) ∧
    createTableContainer (some [("old", "int")]) [("a b", "text"), ("n", "numeric")]
        false false = (some [("a b", "text"), ("n", "numeric")], true) := by
  refine ⟨?_, ?_⟩
  · exact (C8_provision_transactional (some [("old", "int")])
      [("a b", "text"), ("n", "numeric")] false true).1 (Or.inr rfl)
  · exact (C8_provision_transactional (some [("old", "int")])
      [("a b", "text"), ("n", "numeric")] false false).2.1 rfl rfl

/-- A `filterMap` whose function succeeds on every element preserves
length. -/
theorem length_filterMap_all_some (f : α → Option β) :
    ∀ l : List α, (∀ a ∈ l, (f a).isSome) → (l.filterMap f).length = l.length := by
  intro l
  induction l with
  | nil => simp
  | cons a as ih =>
    intro h
    obtain ⟨b, hb⟩ := Option.isSome_iff_exists.mp (h a (by simp))
    rw [List.filterMap_cons, hb]
    simp [ih (fun x hx => h x (by simp [hx]))]

/-- In a value list with no empty entry, every in-range position holds a
non-empty string. -/
theorem field_nonempty_of_no_empty (vals : List (Option String)) (k : Nat)
    (hk : k < vals.length) (hany : vals.any isEmptyVal = false) :
    ∃ str, (vals.get? k).join = some str ∧ str ≠ "" := by
  have hsome : (vals.get? k).isSome := by
    rw [Option.isSome_iff_ne_none]
    intro hnone
    rw [List.get?_eq_none] at hnone
    omega
  obtain ⟨w, hw⟩ := Option.isSome_iff_exists.mp hsome
  have hmem : w ∈ vals := List.get?_mem hw
  have hne : isEmptyVal w = false := by
    rw [List.any_eq_false] at hany
    exact eq_false_of_ne_true (hany w hmem)
  rw [isEmptyVal] at hne
  cases w with
  | none => simp at hne
  | some str =>
    refine ⟨str, ?_, ?_⟩
    · rw [hw]
      rfl
    · intro hstr
      subst hstr
      simp at hne

/-- When no required identifier is missing, every one of them resolves. -/
theorem resolve_all_of_missing_nil (namedRanges : List String)
    (hmiss : missingRanges namedRanges = []) :
    ∀ a ∈ rangeNames, (resolveName namedRanges a).isSome := by
  intro a ha
  rw [missingRanges, List.filter_eq_nil_iff] at hmiss
  have := hmiss a ha
  simp only [Option.isNone_iff_eq_none] at this
  rw [Option.isSome_iff_ne_none]
  exact this

/-- When every required identifier resolves, none is missing. -/
theorem missing_nil_of_resolve_all (namedRanges : List String)
    (hall : ∀ a ∈ rangeNames, (resolveName namedRanges a).isSome) :
    missingRanges namedRanges = [] := by
  rw [missingRanges, List.filter_eq_nil_iff]
  intro a ha
  have h2 := hall a ha
  rw [Option.isSome_iff_ne_none] at h2
  simp only [Option.isNone_iff_eq_none]
  exact h2

/-- With an unresolvable required identifier, `checkSetup` takes the
missing-ranges branch: no setup is ever assigned and the result is
invalid. -/
theorem checkSetup_of_missing (namedRanges : List String)
    (fetch : String → Option (List (List String)))
    (h : ∃ rn ∈ rangeNames, resolveName namedRanges rn = none) :
    checkSetup namedRanges fetch = { setup := none, validSetup := false } := by
  obtain ⟨rn, hmem, hnone⟩ := h
  rw [checkSetup, if_neg]
  intro hnil
  rw [missingRanges, List.filter_eq_nil_iff] at hnil
  have := hnil rn hmem
  simp [hnone] at this

/-- With every identifier resolving but some flattened value empty,
`checkSetup` assembles the full setup object yet reports it invalid. -/
theorem checkSetup_of_empty (namedRanges : List String)
    (fetch : String → Option (List (List String)))
    (hall : ∀ rn ∈ rangeNames, (resolveName namedRanges rn).isSome)
    (h : ∃ rn ∈ rangeNames,
      isEmptyVal (flattenRangeValues
        (fetch ((resolveName namedRanges rn).getD rn))) = true) :
    checkSetup namedRanges fetch =
      { setup := some (mkSetup (fetchedValues namedRanges fetch)),
        validSetup := false } := by
  obtain ⟨rn, hmem, hempty⟩ := h
  rw [checkSetup, if_pos (missing_nil_of_resolve_all namedRanges hall)]
  have hany : (fetchedValues namedRanges fetch).any isEmptyVal = true := by
    rw [List.any_eq_true]
    obtain ⟨fr, hfr⟩ := Option.isSome_iff_exists.mp (hall rn hmem)
    refine ⟨flattenRangeValues (fetch fr), ?_, ?_⟩
    · rw [fetchedValues]
      exact List.mem_map.mpr ⟨fr, List.mem_filterMap.mpr ⟨rn, hmem, hfr⟩, rfl⟩
    · rw [hfr] at hempty
      simpa using hempty
  rw [hany]
  rfl

/-- Claim C10: if some required named range is unresolvable, `checkSetup`
returns `validSetup = false` together with `setup = undefined` (the
hoisted `var setup` is never assigned, so any field access by the caller
would throw); if all eight resolve but some flattened value is empty, it
returns `validSetup = false` together with a fully populated setup
object assembled from the fetched values — empties included. -/
theorem C10_checkSetup_result_shapes :
    (∀ (namedRanges : List String) (fetch : String → Option (List (List String))),
      (∃ rn ∈ rangeNames, resolveName namedRanges rn = none) →
      checkSetup namedRanges fetch = { setup := none, validSetup := false }) ∧
    (∀ (namedRanges : List String) (fetch : String → Option (List (List String))),
      (∀ rn ∈ rangeNames, (resolveName namedRanges rn).isSome) →
      (∃ rn ∈ rangeNames,
        isEmptyVal (flattenRangeValues
          (fetch ((resolveName namedRanges rn).getD rn))) = true) →
      checkSetup namedRanges fetch =
        { setup := some (mkSetup (fetchedValues namedRanges fetch)),
          validSetup := false }) :=
  ⟨checkSetup_of_missing, checkSetup_of_empty⟩

/-- Witness for C10: with no named ranges at all, `checkSetup` yields an
unassigned setup; with all eight ranges resolving (bare names, identity
fetch of a one-cell value) but `table_name` empty, it yields a fully
populated setup carrying the empty value, and `validSetup` is false in
both cases. -/
theorem C10_checkSetup_result_shapes_witness :
    checkSetup [] (fun _ => none) = { setup := none, validSetup := false } ∧
    checkSetup rangeNames
        (fun rn => if rn == "table_name" then some [[""]] else some [[rn]]) =
      { setup := some (mkSetup (fetchedValues rangeNames
          (fun rn => if rn == "table_name" then some [[""]] else some [[rn]]))),
        validSetup := false } := by
  constructor
  · exact C10_checkSetup_result_shapes.1 [] (fun _ => none)
      ⟨"metadata_range", by decide, by decide⟩
  · exact C10_checkSetup_result_shapes.2 rangeNames
      (fun rn => if rn == "table_name" then some [[""]] else some [[rn]])
      (by decide) ⟨"table_name", by decide, by decide⟩

/-- Claim C4: `checkSetup` reports an invalid configuration whenever any
of the eight required named fields is unresolvable or resolves to an
empty value; when it reports a valid configuration the setup object is
fully populated with non-empty values (never a partial configuration);
and an invalid configuration is never passed to scheduling or loading —
the per-sheet body skips straight to the invalid outcome. -/
theorem C4_invalid_configs_rejected :
    (∀ (namedRanges : List String) (fetch : String → Option (List (List String))),
      (∃ rn ∈ rangeNames, resolveName namedRanges rn = none ∨
        isEmptyVal (flattenRangeValues
          (fetch ((resolveName namedRanges rn).getD rn))) = true) →
      (checkSetup namedRanges fetch).validSetup = false) ∧
    (∀ (namedRanges : List String) (fetch : String → Option (List (List String))),
      (checkSetup namedRanges fetch).validSetup = true →
      ∃ s, (checkSetup namedRanges fetch).setup = some s ∧
        ∀ v ∈ setupFields s, ∃ str, v = some str ∧ str ≠ "") ∧
    (∀ (processID : JSDate) (parseDate : Option String → JSDate) (s : SheetSim),
      (checkSetup s.namedRanges s.fetch).validSetup = false →
      processSheet processID parseDate s = SheetOutcome.invalidSetup) := by
  refine ⟨?_, ?_, ?_⟩
  · rintro namedRanges fetch ⟨rn, hmem, hbad⟩
    by_cases hmiss : missingRanges namedRanges = []
    · have hall := resolve_all_of_missing_nil namedRanges hmiss
      rcases hbad with hnone | hempty
      · have := hall rn hmem
        rw [Option.isSome_iff_ne_none] at this
        exact absurd hnone this
      · rw [checkSetup_of_empty namedRanges fetch hall ⟨rn, hmem, hempty⟩]
    · rw [checkSetup, if_neg hmiss]
  · intro namedRanges fetch hvalid
    by_cases hmiss : missingRanges namedRanges = []
    · rw [checkSetup, if_pos hmiss] at hvalid ⊢
      have hany : (fetchedValues namedRanges fetch).any isEmptyVal = false := by
        simpa using hvalid
      refine ⟨mkSetup (fetchedValues namedRanges fetch), rfl, ?_⟩
      have hlen : (fetchedValues namedRanges fetch).length = 8 := by
        rw [fetchedValues, List.length_map, foundRanges,
          length_filterMap_all_some (resolveName namedRanges) rangeNames
            (resolve_all_of_missing_nil namedRanges hmiss)]
        rfl
      intro v hv
      have hform : ∃ k, k < 8 ∧
          v = ((fetchedValues namedRanges fetch).get? k).join := by
        simp only [setupFields, mkSetup, List.mem_cons, List.not_mem_nil, or_false] at hv
        rcases hv with h | h | h | h | h | h | h | h
        · exact ⟨0, by omega, h⟩
        · exact ⟨1, by omega, h⟩
        · exact ⟨2, by omega, h⟩
        · exact ⟨3, by omega, h⟩
        · exact ⟨4, by omega, h⟩
        · exact ⟨5, by omega, h⟩
        · exact ⟨6, by omega, h⟩
        · exact ⟨7, by omega, h⟩
      obtain ⟨k, hk, rfl⟩ := hform
      exact field_nonempty_of_no_empty (fetchedValues namedRanges fetch) k
        (by rw [hlen]; exact hk) hany
    · rw [checkSetup, if_neg hmiss] at hvalid
      simp at hvalid
  · intro processID parseDate s hinvalid
    rw [processSheet]
    simp [hinvalid]

/-- Witness for C4: a sheet with no named ranges is invalid and its
per-sheet processing yields the invalid outcome; a sheet with all eight
ranges resolving to non-empty one-cell values is valid with a fully
populated setup. -/
theorem C4_invalid_configs_rejected_witness :
    (checkSetup [] (fun _ => none)).validSetup = false ∧
    processSheet { valid := true, epochMs := 0, day := 1, hour := 0, minute := 0 }
      (fun _ => { valid := true, epochMs := 0, day := 1, hour := 0, minute := 0 })
      { namedRanges := [], fetch := fun _ => none,
        fetchThrows := false, ingestFails := false } = SheetOutcome.invalidSetup ∧
    ∃ s, (checkSetup rangeNames (fun rn => some [[rn]])).setup = some s ∧
      ∀ v ∈ setupFields s, ∃ str, v = some str ∧ str ≠ "" := by
  refine ⟨?_, ?_, ?_⟩
  · exact C4_invalid_configs_rejected.1 [] (fun _ => none)
      ⟨"metadata_range", by decide, Or.inl (by decide)⟩
  · exact C4_invalid_configs_rejected.2.2 _ _ _ (by decide)
  · exact C4_invalid_configs_rejected.2.1 rangeNames (fun rn => some [[rn]]) (by decide)

/-- Counterexample to claim C3 as stated: the claim asserts that an error
raised during one source's configuration read does not abort processing
of the subsequent sources of the same cycle.  But the `for` loop over the
sheets runs inside a single `try`, and `checkSetup` re-throws transport
errors, so in a two-sheet cycle whose first sheet's configuration read
throws, the second sheet is never processed: the cycle produces 0
outcomes instead of 2. -/
theorem C3_counterexample :
    (runCycle { valid := true, epochMs := 0, day := 1, hour := 0, minute := 0 }
      (fun _ => { valid := true, epochMs := 0, day := 1, hour := 0, minute := 0 })
      [{ namedRanges := [], fetch := fun _ => none,
         fetchThrows := true, ingestFails := false },
       { namedRanges := [], fetch := fun _ => none,
         fetchThrows := false, ingestFails := false }]).1.length ≠ 2 := by
  decide

/-- Claim C3 as amended: an error raised by provisioning or loading for
one source is caught inside that source's ingestion step and does not
abort processing of subsequent sources — a cycle with no
configuration-read transport failures processes every source to an
outcome, whatever the ingestion failures.  A configuration-read
transport failure, however, propagates to the per-cycle catch and aborts
the remaining sources of that cycle (the service survives to the next
cycle). -/
theorem C3_failure_isolation :
    (∀ (processID : JSDate) (parseDate : Option String → JSDate)
      (sheets : List SheetSim),
      (∀ s ∈ sheets, s.fetchThrows = false) →
      runCycle processID parseDate sheets =
        (sheets.map (processSheet processID parseDate), true)) ∧
    (∀ (processID : JSDate) (parseDate : Option String → JSDate)
      (s : SheetSim) (rest : List SheetSim),
      s.fetchThrows = true →
      runCycle processID parseDate (s :: rest) = ([], false)) := by
  constructor
  · intro processID parseDate sheets hnothrow
    induction sheets with
    | nil => rfl
    | cons s rest ih =>
      rw [runCycle]
      rw [if_neg (by rw [hnothrow s (by simp)]; simp)]
      rw [ih (fun x hx => hnothrow x (by simp [hx]))]
      rfl
  · intro processID parseDate s rest hthrow
    rw [runCycle, if_pos hthrow]

/-- Witness for the amended C3: a two-sheet cycle whose first sheet's
ingestion fails (but whose configuration reads do not throw) still
processes both sheets; prepending a sheet whose configuration read
throws aborts the whole cycle. -/
theorem C3_failure_isolation_witness :
    (runCycle { valid := true, epochMs := 0, day := 1, hour := 0, minute := 0 }
      (fun _ => { valid := true, epochMs := 0, day := 1, hour := 0, minute := 0 })
      [{ namedRanges := rangeNames, fetch := fun rn => some [[rn]],
         fetchThrows := false, ingestFails := true },
       { namedRanges := [], fetch := fun _ => none,
         fetchThrows := false, ingestFails := false }]).1.length = 2 ∧
    runCycle { valid := true, epochMs := 0, day := 1, hour := 0, minute := 0 }
      (fun _ => { valid := true, epochMs := 0, day := 1, hour := 0, minute := 0 })
      [{ namedRanges := [], fetch := fun _ => none,
         fetchThrows := true, ingestFails := false },
       { namedRanges := [], fetch := fun _ => none,
         fetchThrows := false, ingestFails := false }] = ([], false) := by
  constructor
  · rw [C3_failure_isolation.1 _ _ _ (by intro s hs; fin_cases hs <;> rfl)]
    rfl
  · exact C3_failure_isolation.2 _ _ _ _ rfl
